/-
Verification of the rate-limit-aware request dispatcher of the
discord-api-wrapper repository (src/api/rest.go) and of
CreateInteractionResponse, against the repository specification.

The embedding below is a shallow model of the Go source:
  * `getBucketID` embeds `strings.SplitN(route, "?", 2)[0]` (rest.go:79,88):
    the prefix of the route before the first '?'.
  * `buildRequest` embeds the header construction of
    `requestWithLockedBucket` (rest.go:106-118): Authorization is always
    set, Content-Type only when a body is present, User-Agent always; the
    `reason` parameter is threaded through the Go functions but never read.
  * `requestWithLockedBucket` embeds rest.go:94-177.  Effects are made
    explicit as a trace of events (bucket lock, bucket release with or
    without headers, one network send, one sleep).  A transport attempt is
    `Option Response`: `none` models `httpClient.Do` returning a nil
    response together with a non-nil error (a transport failure after the
    transport's own connection-level retries), `some resp` models a received
    response with a nil error.  The list of attempts supplies the outcome of
    each successive network send; an exhausted list behaves like a transport
    failure.  `Outcome.panic` models a Go runtime nil-pointer fault: the
    source logs `resp.Status` (rest.go:136) before checking `err`, so a
    transport failure dereferences a nil response.  The body-decode result
    of a 429 response is carried on the response itself (`none` = decode
    error).  `bucket.release` success is assumed (the bucket implementation
    is not among the provided sources); its error branch (rest.go:151-153)
    is not exercised by any claim.
  * the bucket quota policy (`SpecBucket.acquire`) is modelled from the
    spec, because the ratelimiter implementation (NewRatelimiter,
    lockBucket, the bucket wait loop) is not among the provided sources.
  * `CreateInteractionResponse` embeds the payload type-switch of the
    interaction endpoint (the dynamic Go type of the payload becomes an
    explicit tag).
-/

import Mathlib

namespace DiscordApiWrapper

/-! ## Data model -/

/-- Rejection payload of a 429 response, decoded from the body
(rest.go:165-166).  The field set follows the spec's
`{ retryAfter: duration, global: bool, message: string }`; the Go struct
`rateLimitResponse` is declared outside the provided sources.  Durations are
modelled as natural numbers of time units. -/
structure RateLimitResponse where
  retryAfter : Nat
  globalFlag : Bool
  message : String
deriving Repr, DecidableEq

/-- Response headers are opaque to the dispatcher (it only hands them to
`bucket.release`), so they are modelled as a tag. -/
abbrev Headers := Nat

/-- An HTTP response as the dispatcher sees it: a status code, the headers
passed to `bucket.release`, and the result of decoding the body as a
rate-limit rejection (`none` models a JSON decode error; the body is read
only on status 429, rest.go:166). -/
structure Response where
  status : Nat
  headers : Headers
  body : Option RateLimitResponse
deriving Repr, DecidableEq

/-- A request body value: `encodeOk` records whether `json.Encoder.Encode`
succeeds on it (rest.go:99). -/
structure Body where
  encodeOk : Bool
deriving Repr, DecidableEq

/-- Whether the encode step of rest.go:96-104 fails: a nil body is not
encoded at all; a non-nil body fails exactly when the encoder errors. -/
def encodeFails : Option Body → Bool
  | none => false
  | some b => !b.encodeOk

/-- Observable effects of one dispatcher call, in program order. -/
inductive Ev where
  /-- `r.lockBucket`/`r.lockBucketObject`: the bucket is acquired. -/
  | lock (bucketID : String)
  /-- `bucket.release(nil)`: release with no headers. -/
  | releaseNil
  /-- `bucket.release(resp.Header)`: release with the response headers. -/
  | release (h : Headers)
  /-- one `httpClient.Do` network send. -/
  | network
  /-- `time.Sleep(d)`. -/
  | sleep (d : Nat)
deriving Repr, DecidableEq

/-- Result of a dispatcher call: either a Go runtime fault (nil-pointer
dereference), or the returned `(*http.Response, error)` pair. -/
inductive Outcome where
  | panic
  | ret (resp : Option Response) (err : Option String)
deriving Repr, DecidableEq

/-- The 429 branch ends in `return resp, nil` (rest.go:176) after
reassigning `resp, err` from the recursive retry (rest.go:173): the retry's
response is kept, but its error is replaced by nil.  A fault in the retry
remains a fault. -/
def Outcome.forceNilErr : Outcome → Outcome
  | .panic => .panic
  | .ret r _ => .ret r none

/-! ## Dispatcher (rest.go) -/

/-- Bucket-key derivation used at rest.go:79 and rest.go:88:
`strings.SplitN(route, "?", 2)[0]`, the route up to (excluding) the first
'?' — the whole route when it has no query string. -/
def getBucketID (route : String) : String :=
  String.mk (route.data.takeWhile (fun c => c != '?'))

/-- Header construction of rest.go:106-118.  `token` is `utilities.Token`
and `userAgent` is the package-level `UserAgent` constant (both declared
outside the provided sources; only their presence matters here).  The
`reason` parameter mirrors the Go signature: it is accepted and never
read. -/
def buildRequest (token userAgent : String) (hasBody : Bool)
    (contentType : String) (reason : Option String) : List (String × String) :=
  [("Authorization", "Bot " ++ token)]
    ++ (if hasBody then [("Content-Type", contentType)] else [])
    ++ [("User-Agent", userAgent)]

/-- Shallow embedding of `requestWithLockedBucket` (rest.go:94-177).

`b` is the body, `newRequestOk` the success of `http.NewRequest`
(rest.go:106, constant across retries), `bucketID` the bucket the caller
locked, `attempts` the successive transport outcomes.  Returns the
`(resp, err)` outcome (or a fault) together with the event trace of the
call, excluding the caller's initial `lockBucket` (which happens in
`request`, rest.go:91).

Branches, in source order:
  * encode failure (rest.go:99-103): `release(nil)`, return `(nil, err)`;
  * `http.NewRequest` failure (rest.go:106-110): `release(nil)`,
    return `(nil, err)`;
  * transport failure (`Do` returns nil response and non-nil error):
    the source logs `resp.Status` at rest.go:136 before the `err` check at
    rest.go:138, so it faults on the nil response — the `release(nil)` and
    error return of rest.go:139-147 are never reached;
  * response received: `release(resp.Header)` (rest.go:150);
    status 429 (rest.go:160-173): decode the body (decode failure returns
    `(nil, err)`), sleep `retryAfter`, re-lock the bucket, retry once
    recursively, then `return resp, nil` (rest.go:176) — the retry's error
    is dropped by `forceNilErr`;
    any other status falls out of the switch and returns `(resp, nil)`
    (rest.go:155-159,176). -/
def requestWithLockedBucket (b : Option Body) (newRequestOk : Bool)
    (bucketID : String) (attempts : List (Option Response)) :
    Outcome × List Ev :=
  if encodeFails b then
      (.ret none (some "json encode error"), [.releaseNil])
    else if !newRequestOk then
      (.ret none (some "http.NewRequest error"), [.releaseNil])
    else
      match attempts with
      | [] => (.panic, [.network])
      | none :: _ => (.panic, [.network])
      | some resp :: rest =>
        if resp.status = 429 then
          match resp.body with
          | none =>
            (.ret none (some "rate limit body decode error"),
             [.network, .release resp.headers])
          | some rlr =>
            let retry := requestWithLockedBucket b newRequestOk bucketID rest
            (retry.1.forceNilErr,
             .network :: .release resp.headers :: .sleep rlr.retryAfter ::
               .lock bucketID :: retry.2)
        else
          (.ret (some resp) none, [.network, .release resp.headers])

/-- Shallow embedding of `request` (rest.go:86-92): defaults the bucket id
to the route with the query stripped, locks the bucket, and delegates.  The
initial `r.lockBucket(bucketID)` of rest.go:91 is the leading lock event. -/
def request (b : Option Body) (newRequestOk : Bool)
    (attempts : List (Option Response)) (bucketID route : String) :
    Outcome × List Ev :=
  let bid := if bucketID = "" then getBucketID route else bucketID
  let r := requestWithLockedBucket b newRequestOk bid attempts
  (r.1, .lock bid :: r.2)

/-- Shallow embedding of `Request` (rest.go:78-84): the public entry point
derives the bucket id from the route by stripping the query string. -/
def Request (b : Option Body) (newRequestOk : Bool)
    (attempts : List (Option Response)) (route : String) :
    Outcome × List Ev :=
  request b newRequestOk attempts (getBucketID route) route

/-! ## Bucket quota policy (modelled from the spec) -/

/-- Modelled from the spec: the quota state of a Bucket (§3) — the
ratelimiter implementation (NewRatelimiter, lockBucket, the bucket wait
loop) is not among the provided source files.  Timestamps are natural
numbers of time units; an unknown quota is `limit = 0, remaining = 0,
resetAt = 0`. -/
structure SpecBucket where
  limit : Nat
  remaining : Nat
  resetAt : Nat
deriving Repr, DecidableEq

/-- Modelled from the spec: the acquire policy of §4.2.  Returns the time
at which the caller proceeds to send, together with the bucket state after
the optimistic decrement.  If `remaining = 0` and `now < resetAt`, the
caller suspends (a local wait, no network call) until `resetAt`; otherwise
(quota available, or quota unknown with `resetAt` in the past) it proceeds
immediately and `remaining` is optimistically decremented. -/
def SpecBucket.acquire (b : SpecBucket) (now : Nat) : Nat × SpecBucket :=
  if b.remaining = 0 ∧ now < b.resetAt then
    (b.resetAt, b)
  else
    (now, { b with remaining := b.remaining - 1 })

/-! ## CreateInteractionResponse -/

/-- Dynamic Go type of the payload handed to `CreateInteractionResponse`.
The type switch accepts exactly the three double-pointer response types;
everything else (including the single pointer `*InteractionResponseMessages`)
hits the default branch. -/
inductive PayloadType where
  | ptrPtrMessages
  | ptrPtrAutocomplete
  | ptrPtrModal
  | ptrMessages
  | otherType (tag : String)
deriving Repr, DecidableEq

/-- Whether the payload's dynamic type is one of the three cases of the
type switch. -/
def acceptedPayload : PayloadType → Bool
  | .ptrPtrMessages => true
  | .ptrPtrAutocomplete => true
  | .ptrPtrModal => true
  | _ => false

/-- Shallow embedding of `Interaction.CreateInteractionResponse`: a payload
whose dynamic type is not accepted returns nil at once (default branch of
the type switch); otherwise the POST is fired (`postErr` is its result) and
its error, if any, is returned.  The boolean records whether a network
request was performed. -/
def CreateInteractionResponse (t : PayloadType) (postErr : Option String) :
    Option String × Bool :=
  if acceptedPayload t then
    match postErr with
    | some e => (some e, true)
    | none => (none, true)
  else
    (none, false)

/-! ## Helper lemmas -/

lemma takeWhile_append_stop (l m : List Char) (h : ∀ c ∈ l, c ≠ '?') :
    (l ++ '?' :: m).takeWhile (fun c => c != '?') = l := by
  induction l with
  | nil => simp
  | cons a t ih =>
    have ha : a ≠ '?' := h a (by simp)
    simp only [List.cons_append, List.takeWhile_cons]
    simp [ha, ih (fun c hc => h c (by simp [hc]))]

lemma takeWhile_all_of_no_query (l : List Char) (h : ∀ c ∈ l, c ≠ '?') :
    l.takeWhile (fun c => c != '?') = l := by
  induction l with
  | nil => rfl
  | cons a t ih =>
    have ha : a ≠ '?' := h a (by simp)
    simp only [List.takeWhile_cons]
    simp [ha, ih (fun c hc => h c (by simp [hc]))]

lemma getBucketID_strips_query (p q : String) (h : '?' ∉ p.data) :
    getBucketID (p ++ "?" ++ q) = p := by
  unfold getBucketID
  have hd : (p ++ "?" ++ q).data = p.data ++ '?' :: q.data := by
    simp [String.data_append]
  rw [hd, takeWhile_append_stop _ _ (fun c hc he => h (he ▸ hc))]

lemma getBucketID_no_query (p : String) (h : '?' ∉ p.data) :
    getBucketID p = p := by
  unfold getBucketID
  rw [takeWhile_all_of_no_query _ (fun c hc he => h (he ▸ hc))]

/-! ## Claim C1 -/

/-- C1, counterexample.  The claim says a 4xx status other than 429 yields
the response together with a non-nil error.  On a 404 response the
dispatcher falls out of the status switch and returns the response with a
nil error, so the claim is false. -/
theorem c1_counterexample_404_nil_error :
    requestWithLockedBucket none true "/guilds/1" [some ⟨404, 0, none⟩] =
      (.ret (some ⟨404, 0, none⟩) none, [.network, .release 0]) := rfl

/-- C1, amended.  For every response whose status is not 429 — including
every other 4xx/5xx status — the dispatcher returns the response together
with a nil error and issues no retry (a single network send, no sleep). -/
theorem c1_non429_returns_response_nil_error (b : Option Body) (bid : String)
    (resp : Response) (rest : List (Option Response))
    (henc : encodeFails b = false) (hst : resp.status ≠ 429) :
    requestWithLockedBucket b true bid (some resp :: rest) =
      (.ret (some resp) none, [.network, .release resp.headers]) := by
  simp [requestWithLockedBucket, henc, hst]

/-- C1, witness for the amended theorem at a 500 response. -/
theorem c1_witness :
    encodeFails none = false ∧ (500 : Nat) ≠ 429 ∧
    requestWithLockedBucket none true "/channels/2" [some ⟨500, 3, none⟩] =
      (.ret (some ⟨500, 3, none⟩) none, [.network, .release 3]) :=
  ⟨rfl, by decide,
    c1_non429_returns_response_nil_error none "/channels/2" ⟨500, 3, none⟩ []
      rfl (by decide)⟩

/-! ## Claim C2 -/

/-- C2, counterexample.  The claim says two calls whose routes differ only
in a variable path segment resolve to the same bucket key.  The code only
strips the query string, so `/items/1` and `/items/2` get different keys. -/
theorem c2_counterexample_path_params_not_stripped :
    getBucketID "/items/1" ≠ getBucketID "/items/2" := by decide

/-- C2, amended.  The bucket key is computed deterministically from the
route with only the query string removed; path parameters are not
normalized.  Routes that differ only in the query string share a key, a
query-less route equals its own key, and routes whose pre-query parts
differ (including routes differing in a variable path segment, and
unrelated routes) get different keys. -/
theorem c2_bucket_key_query_stripped (p p' q q' : String)
    (hp : '?' ∉ p.data) (hp' : '?' ∉ p'.data) :
    getBucketID (p ++ "?" ++ q) = getBucketID (p ++ "?" ++ q') ∧
    getBucketID p = getBucketID (p ++ "?" ++ q) ∧
    (p ≠ p' → getBucketID (p ++ "?" ++ q) ≠ getBucketID (p' ++ "?" ++ q')) := by
  refine ⟨?_, ?_, ?_⟩
  · rw [getBucketID_strips_query p q hp, getBucketID_strips_query p q' hp]
  · rw [getBucketID_strips_query p q hp, getBucketID_no_query p hp]
  · intro hne
    rw [getBucketID_strips_query p q hp, getBucketID_strips_query p' q' hp']
    exact hne

/-- C2, witness for the amended theorem on concrete routes. -/
theorem c2_witness :
    ('?' ∉ ("/items/1" : String).data) ∧ ('?' ∉ ("/guilds/9" : String).data) ∧
    (getBucketID ("/items/1" ++ "?" ++ "limit=5") =
        getBucketID ("/items/1" ++ "?" ++ "after=3") ∧
      getBucketID "/items/1" = getBucketID ("/items/1" ++ "?" ++ "limit=5") ∧
      (("/items/1" : String) ≠ "/guilds/9" →
        getBucketID ("/items/1" ++ "?" ++ "limit=5") ≠
          getBucketID ("/guilds/9" ++ "?" ++ "after=3"))) :=
  ⟨by decide, by decide,
    c2_bucket_key_query_stripped "/items/1" "/guilds/9" "limit=5" "after=3"
      (by decide) (by decide)⟩

/-! ## Claim C3 -/

/-- C3.  On a 429 response whose body decodes, the dispatcher releases the
bucket with the response headers, sleeps exactly once for the
server-specified `retryAfter`, re-acquires the bucket, and then performs
exactly one retry attempt whose events follow: the trace is one network
send, one release, one sleep, one re-lock, followed by precisely the trace
of a single fresh attempt on the remaining transport outcomes. -/
theorem c3_429_sleeps_once_and_retries_once (b : Option Body) (bid : String)
    (resp : Response) (rlr : RateLimitResponse) (rest : List (Option Response))
    (henc : encodeFails b = false) (hst : resp.status = 429)
    (hbody : resp.body = some rlr) :
    requestWithLockedBucket b true bid (some resp :: rest) =
      ((requestWithLockedBucket b true bid rest).1.forceNilErr,
       .network :: .release resp.headers :: .sleep rlr.retryAfter ::
         .lock bid :: (requestWithLockedBucket b true bid rest).2) := by
  rw [requestWithLockedBucket]
  simp [henc, hst, hbody]

/-- C3, witness at a concrete 429 followed by a 200. -/
theorem c3_witness :
    encodeFails none = false ∧
    (Response.mk 429 5 (some ⟨3, false, "limited"⟩)).status = 429 ∧
    (Response.mk 429 5 (some ⟨3, false, "limited"⟩)).body =
      some ⟨3, false, "limited"⟩ ∧
    requestWithLockedBucket none true "/k"
        [some ⟨429, 5, some ⟨3, false, "limited"⟩⟩, some ⟨200, 6, none⟩] =
      ((requestWithLockedBucket none true "/k" [some ⟨200, 6, none⟩]).1.forceNilErr,
       .network :: .release 5 :: .sleep 3 :: .lock "/k" ::
         (requestWithLockedBucket none true "/k" [some ⟨200, 6, none⟩]).2) :=
  ⟨rfl, rfl, rfl,
    c3_429_sleeps_once_and_retries_once none "/k" ⟨429, 5, some ⟨3, false, "limited"⟩⟩
      ⟨3, false, "limited"⟩ [some ⟨200, 6, none⟩] rfl rfl rfl⟩

/-! ## Claim C4 -/

/-- C4, counterexample.  The claim says a 429 whose body carries
`global = true` causes a process-wide pause of all buckets.  The dispatcher
behaves identically whether the flag is true or false, and its trace shows
the wait is a plain local sleep followed by re-locking the same single
bucket — no other bucket is touched. -/
theorem c4_counterexample_global_flag_has_no_effect :
    requestWithLockedBucket none true "/k"
        [some ⟨429, 7, some ⟨5, true, "rl"⟩⟩, some ⟨200, 8, none⟩] =
      requestWithLockedBucket none true "/k"
        [some ⟨429, 7, some ⟨5, false, "rl"⟩⟩, some ⟨200, 8, none⟩] ∧
    requestWithLockedBucket none true "/k"
        [some ⟨429, 7, some ⟨5, true, "rl"⟩⟩, some ⟨200, 8, none⟩] =
      (.ret (some ⟨200, 8, none⟩) none,
       [.network, .release 7, .sleep 5, .lock "/k", .network, .release 8]) :=
  ⟨rfl, rfl⟩

/-- C4, amended.  For every 429 rejection, the dispatcher's behaviour is
independent of the body's global flag: the decoded `global` field is never
consulted, the `retryAfter` wait is a local sleep of the calling goroutine,
and only the same bucket is re-locked; no process-wide suspension is
triggered by the body flag. -/
theorem c4_global_flag_ignored (b : Option Body) (nrOk : Bool) (bid : String)
    (h : Headers) (ra : Nat) (msg : String) (g g' : Bool)
    (rest : List (Option Response)) (st : Nat) (hst : st = 429) :
    requestWithLockedBucket b nrOk bid (some ⟨st, h, some ⟨ra, g, msg⟩⟩ :: rest) =
      requestWithLockedBucket b nrOk bid
        (some ⟨st, h, some ⟨ra, g', msg⟩⟩ :: rest) := by
  subst hst
  simp [requestWithLockedBucket]

/-- C4, witness for the amended theorem. -/
theorem c4_witness :
    (429 : Nat) = 429 ∧
    requestWithLockedBucket none true "/k"
        [some ⟨429, 1, some ⟨2, true, "m"⟩⟩] =
      requestWithLockedBucket none true "/k"
        [some ⟨429, 1, some ⟨2, false, "m"⟩⟩] :=
  ⟨rfl, c4_global_flag_ignored none true "/k" 1 2 "m" true false [] 429 rfl⟩

/-! ## Claim C5 -/

/-- C5, code bug.  The second attempt, run on its own, is a 429 whose body
fails to decode and therefore returns a non-nil decode error.  Embedded as
the retry of a first 429, the caller instead observes `(nil, nil)`: the 429
branch reassigns `resp, err` from the retry (rest.go:173) but then executes
`return resp, nil` (rest.go:176), silently dropping the retry's error. -/
theorem c5_retry_error_silently_dropped :
    (requestWithLockedBucket none true "/k" [some ⟨429, 9, none⟩]).1 =
      .ret none (some "rate limit body decode error") ∧
    (requestWithLockedBucket none true "/k"
        [some ⟨429, 7, some ⟨2, false, "rl"⟩⟩, some ⟨429, 9, none⟩]).1 =
      .ret none none :=
  ⟨rfl, rfl⟩

/-! ## Claim C6 -/

/-- C6, code bug.  On a transport failure `httpClient.Do` returns a nil
response and a non-nil error, and the source logs `resp.Status`
(rest.go:136) before the `err != nil` check (rest.go:138): the call faults
on the nil response instead of releasing the bucket with nil headers and
returning the transport error — the trace shows neither a `release nil`
nor an error return. -/
theorem c6_transport_error_faults_on_nil_response :
    requestWithLockedBucket none true "/k" [none] =
      (.panic, [.network]) := rfl

/-! ## Claim C7 -/

/-- C7, counterexample.  The claim says a non-nil reason is attached as an
audit-reason header.  The built request carries exactly the Authorization,
Content-Type and User-Agent headers, and the supplied reason string appears
in no header value: the `reason` parameter is never read (rest.go:94-118
set no audit header). -/
theorem c7_counterexample_reason_not_attached :
    buildRequest "tok" "agent" true "application/json" (some "why") =
      [("Authorization", "Bot tok"), ("Content-Type", "application/json"),
       ("User-Agent", "agent")] ∧
    ((buildRequest "tok" "agent" true "application/json" (some "why")).all
      (fun p => p.2 != "why")) = true :=
  ⟨rfl, by decide⟩

/-- C7, amended.  Every outbound request carries the authorization
credential header and the client-identifier header; it carries a
content-type header exactly when a non-nil body is supplied; and the
caller-supplied reason is ignored — the built headers are identical whether
a reason is supplied or not, so no audit-reason header is ever attached. -/
theorem c7_headers_auth_ua_contentType_no_reason (token ua ct : String)
    (hasBody : Bool) (reason : Option String) :
    ("Authorization", "Bot " ++ token) ∈ buildRequest token ua hasBody ct reason ∧
    ("User-Agent", ua) ∈ buildRequest token ua hasBody ct reason ∧
    ((("Content-Type", ct) ∈ buildRequest token ua hasBody ct reason) ↔
      hasBody = true) ∧
    buildRequest token ua hasBody ct reason = buildRequest token ua hasBody ct none := by
  refine ⟨?_, ?_, ?_, rfl⟩
  · cases hasBody <;> simp [buildRequest]
  · cases hasBody <;> simp [buildRequest]
  · cases hasBody <;> simp [buildRequest, Prod.ext_iff]

/-! ## Claim C8 -/

/-- C8, counterexample.  The claim says the encoding error is returned
before bucket acquisition.  On a body that cannot be encoded the trace of
`request` opens with a bucket lock: `r.lockBucket` (rest.go:91) runs before
the encode step (rest.go:96-104), so the bucket is acquired first and then
released with nil headers when the encode fails. -/
theorem c8_counterexample_bucket_locked_before_encode :
    request (some ⟨false⟩) true [] "" "/guilds/1" =
      (.ret none (some "json encode error"),
       [.lock "/guilds/1", .releaseNil]) := rfl

/-- C8, amended.  For every body that cannot be JSON-encoded, the
dispatcher fails fast: the encoding error is returned before any network
call (the trace contains no network event); the bucket is acquired before
the encode step and the acquired bucket is released with nil headers before
returning. -/
theorem c8_encode_error_fails_fast_releases_bucket (b : Option Body)
    (nrOk : Bool) (attempts : List (Option Response)) (bucketID route : String)
    (henc : encodeFails b = true) :
    request b nrOk attempts bucketID route =
      (.ret none (some "json encode error"),
       [.lock (if bucketID = "" then getBucketID route else bucketID),
        .releaseNil]) := by
  cases attempts with
  | nil => simp [request, requestWithLockedBucket, henc]
  | cons a rest => cases a <;> simp [request, requestWithLockedBucket, henc]

/-- C8, witness for the amended theorem on an unencodable body. -/
theorem c8_witness :
    encodeFails (some ⟨false⟩) = true ∧
    request (some ⟨false⟩) true [] "/guilds/1" "/guilds/1" =
      (.ret none (some "json encode error"),
       [.lock (if ("/guilds/1" : String) = "" then getBucketID "/guilds/1"
               else "/guilds/1"),
        .releaseNil]) :=
  ⟨rfl, c8_encode_error_fails_fast_releases_bucket (some ⟨false⟩) true []
    "/guilds/1" "/guilds/1" rfl⟩

/-! ## Claim C9 -/

/-- C9.  A call that begins while the bucket has `remaining = 0` and
`now < resetAt` does not reach Transport before the window resets: the
acquire step suspends the caller in a local wait and lets it proceed
exactly at `resetAt`, strictly after `now`. -/
theorem c9_exhausted_bucket_waits_until_reset (b : SpecBucket) (now : Nat)
    (h0 : b.remaining = 0) (h1 : now < b.resetAt) :
    (b.acquire now).1 = b.resetAt ∧ now < (b.acquire now).1 := by
  constructor
  · simp [SpecBucket.acquire, h0, h1]
  · simp [SpecBucket.acquire, h0, h1]

/-- C9, witness on a concrete exhausted bucket. -/
theorem c9_witness :
    (SpecBucket.mk 5 0 10).remaining = 0 ∧ (3 : Nat) < (SpecBucket.mk 5 0 10).resetAt ∧
    (((SpecBucket.mk 5 0 10).acquire 3).1 = (SpecBucket.mk 5 0 10).resetAt ∧
      (3 : Nat) < ((SpecBucket.mk 5 0 10).acquire 3).1) :=
  ⟨rfl, by decide,
    c9_exhausted_bucket_waits_until_reset ⟨5, 0, 10⟩ 3 rfl (by decide)⟩

/-! ## Claim C10 -/

/-- C10.  For every payload whose dynamic type is not one of the three
accepted double-pointer response types, `CreateInteractionResponse` hits
the default branch of its type switch: it performs no network request and
returns a nil error, whatever a POST would have produced. -/
theorem c10_unaccepted_payload_silently_dropped (t : PayloadType)
    (postErr : Option String) (h : acceptedPayload t = false) :
    CreateInteractionResponse t postErr = (none, false) := by
  simp [CreateInteractionResponse, h]

/-- C10, witness at the single-pointer payload type. -/
theorem c10_witness :
    acceptedPayload .ptrMessages = false ∧
    CreateInteractionResponse .ptrMessages (some "post failed") = (none, false) :=
  ⟨rfl, c10_unaccepted_payload_silently_dropped .ptrMessages (some "post failed") rfl⟩

end DiscordApiWrapper
